import Mathlib

/-!
Verification of the command/codeblock execution core of the repository
(`gptme/tools/__init__.py`): a shallow embedding in Lean 4 of the
statement-by-statement Python interpreter (`_execute_python`), the save and
load handlers (`_execute_save`, `_execute_load`), the inline command
dispatcher (`_execute_linecmd`) and the shell executor (`_execute_shell`),
together with theorems settling the specification claims about them.

Conventions of the embedding:
* Python strings are Lean `String`s; the CPython `str` methods the source
  uses (`strip`, `split`, `startswith`, `endswith`, `lower`, slicing) are
  modelled by executable functions over the underlying character list, so
  that every concrete run reduces inside the kernel.
* The fragment of the Python language that the source feeds to `ast.parse`,
  `eval` and `exec` in the claims under scrutiny (integer and string
  literals, names, `+`, `print`, assignment, augmented assignment) is
  embedded as an explicit AST with an executable evaluator; statement
  *kinds* mirror the `ast` node classes tested by the source's
  `isinstance` chain.
* Generators of messages are modelled as the finite list of messages they
  yield when fully consumed; `input()` answers are passed as explicit
  arguments; the filesystem and the subprocess are passed as explicit data.
-/

namespace GptPlayground

/-! ### Python string primitives (models of the CPython `str` methods) -/

/-- Model of CPython `str.isspace` for the ASCII whitespace the source meets. -/
def pyIsSpace (c : Char) : Bool :=
  c = ' ' || c = '\n' || c = '\t' || c = '\r'

/-- Model of CPython `str.strip()`. -/
def pyStrip (s : String) : String :=
  ⟨((s.data.dropWhile pyIsSpace).reverse.dropWhile pyIsSpace).reverse⟩

/-- Model of CPython `str.startswith`. -/
def pyStartsWith (s p : String) : Bool :=
  p.data.isPrefixOf s.data

/-- Model of CPython `str.endswith`. -/
def pyEndsWith (s p : String) : Bool :=
  p.data.isSuffixOf s.data

/-- Model of CPython `str.lower()` (ASCII). -/
def pyLower (s : String) : String :=
  ⟨s.data.map Char.toLower⟩

/-- Model of the CPython slice `s[n:]`. -/
def pyDrop (s : String) (n : Nat) : String :=
  ⟨s.data.drop n⟩

/-- Model of the CPython slice `s[:-n]` (for `n ≤ len s`). -/
def pyDropRight (s : String) (n : Nat) : String :=
  ⟨s.data.take (s.data.length - n)⟩

/-- Model of CPython `len(s)`. -/
def pyLen (s : String) : Nat :=
  s.data.length

def pySplitAux (sep : List Char) : Nat → List Char → List Char → List (List Char)
  | 0, l, acc => [acc.reverse ++ l]
  | fuel + 1, l, acc =>
    match l with
    | [] => [acc.reverse]
    | c :: rest =>
      if sep.isPrefixOf l then
        acc.reverse :: pySplitAux sep fuel (l.drop sep.length) []
      else
        pySplitAux sep fuel rest (c :: acc)

/-- Model of CPython `s.split(sep)` for a non-empty separator. -/
def pySplit (s sep : String) : List String :=
  (pySplitAux sep.data s.data.length s.data []).map (fun l => ⟨l⟩)

/-- Model of CPython `str.splitlines()` for `\n`-separated text. -/
def pySplitLines (text : String) : List String :=
  if text = "" then []
  else
    let ls := pySplit text "\n"
    if pyEndsWith text "\n" then ls.dropLast else ls

def digitsToNatAux : List Char → Nat → Option Nat
  | [], acc => some acc
  | c :: rest, acc =>
    if c.isDigit then digitsToNatAux rest (acc * 10 + (c.toNat - 48)) else none

def digitsToNat : List Char → Option Nat
  | [] => none
  | l => digitsToNatAux l 0

/-- Model of CPython `int(s)` restricted to decimal literals, as `ast` reads them. -/
def pyToInt (s : String) : Option Int :=
  match s.data with
  | '-' :: rest => (digitsToNat rest).map (fun n => -(n : Int))
  | l => (digitsToNat l).map (fun n => (n : Int))

def isIdentChar (c : Char) : Bool :=
  c.isAlphanum || c = '_'

/-- Recognizer for a Python identifier. -/
def isIdent (s : String) : Bool :=
  match s.data with
  | [] => false
  | c :: rest => (c.isAlpha || c = '_') && rest.all isIdentChar

/-- The membership test `x in ["y", "yes"]` of `_execute_python` (line 158). -/
def inYYes (x : String) : Bool :=
  x == "y" || x == "yes"

/-- The membership test `x in ["y", "Y", "", "yes"]` of `_execute_save`,
`_execute_load` and `_execute_shell` (lines 43, 62, 108). -/
def inYYesEmpty (x : String) : Bool :=
  x == "y" || x == "Y" || x == "" || x == "yes"

/-! ### The conversation message record (`Message` in `gptme/message.py`) -/

/-- The conversation `Message` record: a role tag and a text body. -/
structure Message where
  role : String
  content : String
deriving DecidableEq

/-! ### The Python runtime fragment (models of values, `str`, `repr`, truthiness, `+`) -/

/-- A Python value of the fragment the executed sources produce. -/
inductive PyVal where
  | int (n : Int)
  | str (s : String)
  | none
deriving DecidableEq

/-- A raised Python exception: its class name and its message. -/
structure PyErr where
  kind : String
  msg : String
deriving DecidableEq

/-- Model of CPython `str(v)`. -/
def pyStr : PyVal → String
  | .int n => toString n
  | .str s => s
  | .none => "None"

/-- Model of CPython `repr(v)`. -/
def pyRepr : PyVal → String
  | .int n => toString n
  | .str s => "\x27" ++ s ++ "\x27"
  | .none => "None"

/-- Model of CPython truthiness (`bool(v)`). -/
def pyTruthy : PyVal → Bool
  | .int n => n != 0
  | .str s => s != ""
  | .none => false

/-- Model of CPython `+` on the fragment's values. -/
def pyAdd : PyVal → PyVal → Except PyErr PyVal
  | .int a, .int b => .ok (.int (a + b))
  | .str a, .str b => .ok (.str (a ++ b))
  | _, _ => .error ⟨"TypeError", "unsupported operand type(s) for +"⟩

/-! ### The `ast` fragment: expressions, statements, statement kinds -/

/-- Expressions of the embedded Python fragment. -/
inductive Expr where
  | intLit (n : Int)
  | strLit (s : String)
  | name (x : String)
  | add (a b : Expr)
  | printCall (e : Expr)
deriving DecidableEq

/-- The grammatical category of a top-level statement: one constructor per
`ast` node class that `_execute_python`'s `isinstance` chain can meet. -/
inductive StmtKind where
  | assign
  | annAssign
  | augAssign
  | assertStmt
  | classDef
  | functionDef
  | asyncFunctionDef
  | importStmt
  | importFrom
  | ifStmt
  | forStmt
  | whileStmt
  | withStmt
  | tryStmt
  | asyncFor
  | asyncWith
  | matchStmt
  | deleteStmt
  | exprStmt
  | passStmt
deriving DecidableEq

/-- Top-level statements of the embedded fragment. -/
inductive Stmt where
  | assign (x : String) (e : Expr)
  | augAssign (x : String) (e : Expr)
  | exprStmt (e : Expr)
deriving DecidableEq

/-- The grammatical category of a statement (what `isinstance` inspects). -/
def kindOf : Stmt → StmtKind
  | .assign _ _ => .assign
  | .augAssign _ _ => .augAssign
  | .exprStmt _ => .exprStmt

/-- Model of `ast.unparse` on the fragment's expressions. -/
def unparseExpr : Expr → String
  | .intLit n => toString n
  | .strLit s => "\x27" ++ s ++ "\x27"
  | .name x => x
  | .add a b => unparseExpr a ++ " + " ++ unparseExpr b
  | .printCall e => "print(" ++ unparseExpr e ++ ")"

/-- Model of `ast.unparse` on the fragment's statements. -/
def unparse : Stmt → String
  | .assign x e => x ++ " = " ++ unparseExpr e
  | .augAssign x e => x ++ " += " ++ unparseExpr e
  | .exprStmt e => unparseExpr e

/-- Model of `ast.parse` on an atomic expression of the fragment. -/
def parseAtom (s : String) : Except String Expr :=
  let s := pyStrip s
  if s.data.length ≥ 2 && pyStartsWith s "\x27" && pyEndsWith s "\x27" then
    .ok (.strLit (pyDropRight (pyDrop s 1) 1))
  else
    match pyToInt s with
    | some n => .ok (.intLit n)
    | none => if isIdent s then .ok (.name s) else .error "invalid syntax"

/-- Model of `ast.parse` on a sum of atoms. -/
def parseSum (s : String) : Except String Expr :=
  match (pySplit s " + ").mapM parseAtom with
  | .error e => .error e
  | .ok [] => .error "invalid syntax"
  | .ok (e :: rest) => .ok (rest.foldl Expr.add e)

/-- Model of `ast.parse` on an expression of the fragment. -/
def parseExprS (s : String) : Except String Expr :=
  let s := pyStrip s
  if pyStartsWith s "print(" && pyEndsWith s ")" then
    (parseSum (pyDropRight (pyDrop s 6) 1)).map .printCall
  else
    parseSum s

/-- Model of `ast.parse` on a single-line statement of the fragment. -/
def parseLine (s : String) : Except String Stmt :=
  match pySplit s " += " with
  | [x, rhs] =>
    if isIdent x then (parseExprS rhs).map (Stmt.augAssign x) else .error "invalid syntax"
  | _ =>
    match pySplit s " = " with
    | [x, rhs] =>
      if isIdent x then (parseExprS rhs).map (Stmt.assign x) else .error "invalid syntax"
    | _ => (parseExprS s).map Stmt.exprStmt

/-- Model of `ast.parse(code).body` on the fragment: one statement per
non-blank line. -/
def parsePython (code : String) : Except String (List Stmt) :=
  ((pySplit code "\n").filter (fun l => pyStrip l != "")).mapM
    (fun l => parseLine (pyStrip l))

/-! ### Evaluation: models of `eval` and `exec` bound to the shared `locals_` -/

/-- The evaluation environment (`locals_` in the source): a name-to-value
mapping, here an association list where the most recent binding wins. -/
def Env : Type := List (String × PyVal)

def lookupVar (env : Env) (x : String) : Option PyVal :=
  match env with
  | [] => Option.none
  | (y, v) :: rest => if y = x then some v else lookupVar rest x

def setVar (env : Env) (x : String) (v : PyVal) : Env :=
  (x, v) :: env

def nameError (x : String) : PyErr :=
  ⟨"NameError", "name \x27" ++ x ++ "\x27 is not defined"⟩

/-- Model of `eval` on an expression of the fragment. The second component
of the result is the text the evaluation writes to `sys.stdout` (via
`print`); in the source's `eval` branch that text is *not* captured and
goes to the terminal. -/
def evalExpr (env : Env) : Expr → Except PyErr (PyVal × String)
  | .intLit n => .ok (.int n, "")
  | .strLit s => .ok (.str s, "")
  | .name x =>
    match lookupVar env x with
    | some v => .ok (v, "")
    | Option.none => .error (nameError x)
  | .add a b =>
    match evalExpr env a with
    | .error e => .error e
    | .ok (va, pa) =>
      match evalExpr env b with
      | .error e => .error e
      | .ok (vb, pb) =>
        match pyAdd va vb with
        | .error e => .error e
        | .ok v => .ok (v, pa ++ pb)
  | .printCall e =>
    match evalExpr env e with
    | .error er => .error er
    | .ok (v, p) => .ok (.none, p ++ pyStr v ++ "\n")

/-- Model of `exec(stmt_str, globals(), locals_)` on a statement of the
fragment; returns the updated environment and the text printed to stdout
(which the source's `exec` branch captures through `redirect_stdout`). -/
def execStmt (env : Env) : Stmt → Except PyErr (Env × String)
  | .assign x e =>
    match evalExpr env e with
    | .error er => .error er
    | .ok (v, p) => .ok (setVar env x v, p)
  | .augAssign x e =>
    match lookupVar env x with
    | Option.none => .error (nameError x)
    | some v₀ =>
      match evalExpr env e with
      | .error er => .error er
      | .ok (v, p) =>
        match pyAdd v₀ v with
        | .error er => .error er
        | .ok v₁ => .ok (setVar env x v₁, p)
  | .exprStmt e =>
    match evalExpr env e with
    | .error er => .error er
    | .ok (_, p) => .ok (env, p)

/-- Model of `eval(stmt_str, globals(), locals_)`: `eval` only accepts an
expression, so re-parsing any other statement kind raises a `SyntaxError`
at evaluation time. -/
def evalStmt (env : Env) : Stmt → Except PyErr (PyVal × String)
  | .exprStmt e => evalExpr env e
  | _ => .error ⟨"SyntaxError", "invalid syntax"⟩

/-! ### The Statement Interpreter (`_execute_python`) -/

/-- The source's `isinstance` chain (lines 173-189): the statement kinds
routed to the `exec` branch, in the order the source tests them. -/
def usesExec (k : StmtKind) : Bool :=
  k = .assign
  || k = .annAssign
  || k = .assertStmt
  || k = .classDef
  || k = .functionDef
  || k = .importStmt
  || k = .importFrom
  || k = .ifStmt
  || k = .forStmt
  || k = .whileStmt
  || k = .withStmt
  || k = .tryStmt
  || k = .asyncFor
  || k = .asyncFunctionDef
  || k = .asyncWith

/-- One iteration of the statement loop, after the `>>> ` line: the
`exec`-under-capture branch (whose stripped captured output is the result)
or the `eval` branch (whose value is the result).  Returns the new
environment and the text appended to the transcript after the prompt line
(empty when `if result:` is falsy). -/
def stepStmt (env : Env) (s : Stmt) : Except PyErr (Env × String) :=
  if usesExec (kindOf s) then
    match execStmt env s with
    | .error e => .error e
    | .ok (env₂, printed) =>
      let result := pyStrip printed
      .ok (env₂, if result != "" then result ++ "\n" else "")
  else
    match evalStmt env s with
    | .error e => .error e
    | .ok (v, _printedToTerminal) =>
      .ok (env, if pyTruthy v then pyStr v ++ "\n" else "")

/-- The state accumulated by the statement loop. -/
structure RunResult where
  env : Env
  out : String
  err : Bool

/-- The statement loop of `_execute_python` (lines 168-200): render each
statement, run it, append its result, and stop at the first failure. -/
def runStmts (env : Env) : List Stmt → RunResult
  | [] => ⟨env, "", false⟩
  | s :: rest =>
    let head := ">>> " ++ unparse s ++ "\n"
    match stepStmt env s with
    | .error e => ⟨env, head ++ (e.kind ++ ": " ++ e.msg ++ "\n"), true⟩
    | .ok (env₂, out) =>
      let r := runStmts env₂ rest
      ⟨r.env, head ++ out ++ r.out, r.err⟩

/-- The initial content of the process-wide `locals_` mapping, as far as the
names the executed fragment can mention are concerned. -/
def locals0 : Env := []

/-- `_execute_python`, threading the shared environment explicitly:
strip the source, pass the confirmation gate, parse, run the statement
loop, and yield exactly one message. -/
def execute_python_env (env : Env) (code : String) (ask : Bool) (confirm : String) :
    Env × List Message :=
  let code := pyStrip code
  if !ask || inYYes (pyLower confirm) then
    match parsePython code with
    | .error e => (env, [⟨"system", "SyntaxError: " ++ e⟩])
    | .ok statements =>
      let r := runStmts env statements
      let output := r.out ++ (if r.err then "Error during execution, aborting." else "")
      (r.env, [⟨"system", output⟩])
  else
    (env, [⟨"system", "Aborted, user chose not to run command."⟩])

/-- `_execute_python` called on the freshly initialized process-wide
environment: the list of messages it yields. -/
def execute_python (code : String) (ask : Bool) (confirm : String) : List Message :=
  (execute_python_env locals0 code ask confirm).2

/-! ### The save handler (`_execute_save`) -/

/-- The loop state of `_execute_save`: the previously completed codeblock,
the codeblock being scanned, the remaining `input()` answers, and the
observable effects so far (messages yielded, files written). -/
structure SaveState where
  prev : String
  cur : String
  answers : List String
  msgs : List Message
  writes : List (String × String)

/-- `line.split(":")[1].strip()` — the filename of a save directive. -/
def saveFilename (line : String) : String :=
  pyStrip ((((pySplit line ":").drop 1).headD ""))

/-- `"\n".join(prev_codeblock.split("\n")[1:-2])` — the content saved from
the previously completed codeblock. -/
def saveContent (prev : String) : String :=
  String.intercalate "\n" ((((pySplit prev "\n").drop 1).dropLast).dropLast)

/-- The body of `_execute_save`'s line loop (lines 36-53): handle a save
directive, then feed the line to the fence scanner. -/
def saveStep (st : SaveState) (line : String) : SaveState :=
  let st :=
    if pyStartsWith (pyStrip line) "// save:" then
      let filename := saveFilename line
      let content := saveContent st.prev
      let confirm := st.answers.headD ""
      { st with
        answers := st.answers.tail
        writes :=
          if inYYesEmpty (pyLower confirm) then
            st.writes ++ [(filename, content)]
          else st.writes
        msgs := st.msgs ++ [⟨"system", "Saved to " ++ filename⟩] }
    else st
  if pyStartsWith line "```" || st.cur != "" then
    let cur := st.cur ++ line ++ "\n"
    if pyStartsWith cur "```" && pyEndsWith (pyStrip cur) "```" then
      { st with prev := cur, cur := "" }
    else
      { st with cur := cur }
  else st

/-- `_execute_save`: fold the line loop over the text, starting from empty
buffers and the given queue of `input()` answers. -/
def execute_save (text : String) (answers : List String) : SaveState :=
  (pySplitLines text).foldl saveStep ⟨"", "", answers, [], []⟩

/-! ### The load handler (`_execute_load`) -/

/-- What a full consumption of the `_execute_load` generator does: the
messages yielded, whether the confirmation prompt was reached, and the
exception (if any) escaping the generator. -/
structure LoadResult where
  msgs : List Message
  prompted : Bool
  exn : Option String
deriving DecidableEq

/-- `_execute_load` (lines 56-65), with the filesystem passed explicitly:
`fileExists` tells whether `os.path.exists(filename)` holds and `content`
is the file's content when it exists.  The source has no early return
after the missing-file message, so control always reaches the `input()`
prompt; an affirmative answer then calls `open(filename)`, which raises
`FileNotFoundError` when the file does not exist. -/
def execute_load (filename : String) (fileExists : Bool) (content : String)
    (answer : String) : LoadResult :=
  let pre : List Message :=
    if !fileExists then
      [⟨"system", "Tried to load file \x27" ++ filename ++ "\x27, but it does not exist."⟩]
    else []
  if inYYesEmpty (pyLower answer) then
    if fileExists then
      { msgs := pre ++ [⟨"system", "# filename: " ++ filename ++ "\n\n" ++ content⟩],
        prompted := true, exn := Option.none }
    else
      { msgs := pre, prompted := true, exn := some "FileNotFoundError" }
  else
    { msgs := pre, prompted := true, exn := Option.none }

/-! ### The inline command dispatcher (`_execute_linecmd`) -/

/-- The executor an inline command line is dispatched to, with the argument
it receives. -/
inductive Action where
  | terminal (cmd : String)
  | python (cmd : String)
  | load (filename : String)
deriving DecidableEq

/-- `_execute_linecmd` (lines 68-78): which executor the line is handed to
and with which argument.  Note the load branch slices off only
`len("load: ")` characters of the raw line. -/
def linecmdAction (line : String) : Option Action :=
  if pyStartsWith line "terminal: " then
    some (.terminal (pyDrop line (pyLen "terminal: ")))
  else if pyStartsWith line "python: " then
    some (.python (pyDrop line (pyLen "python: ")))
  else if pyStartsWith (pyStrip line) "// load: " then
    some (.load (pyDrop line (pyLen "load: ")))
  else
    Option.none

/-! ### The Shell Executor (`_execute_shell`) -/

/-- The outcome of `subprocess.run`: captured stdout, captured stderr and
the exit code. -/
structure ProcResult where
  stdout : String
  stderr : String
  returncode : Int

/-- The Execution Report built by `_execute_shell` (lines 110-122) from the
normalized command and the subprocess outcome. -/
def shellReport (cmd : String) (p : ProcResult) : String :=
  let stdout := pyStrip p.stdout
  let stderr := pyStrip p.stderr
  let msg := "Ran command:\n```bash\n" ++ cmd ++ "\n```\n\n"
  let msg := if stdout ≠ "" then msg ++ ("Output:\n\n```bash\n" ++ stdout ++ "\n```\n\n") else msg
  let msg := if stderr ≠ "" then msg ++ ("Error:\n\n```bash\n" ++ stderr ++ "\n```\n\n") else msg
  let msg := if stdout = "" ∧ stderr = "" then msg ++ "No output\n\n" else msg
  if p.returncode ≠ 0 then msg ++ ("Return code: " ++ toString p.returncode)
  else msg ++ "Ran successfully"

/-- The command normalization at the head of `_execute_shell`: strip, then
drop a leading `$ `. -/
def shellNorm (cmd : String) : String :=
  let c := pyStrip cmd
  if pyStartsWith c "$ " then pyDrop c (pyLen "$ ") else c

/-- `_execute_shell`, with the subprocess passed as a function from the
command to its outcome: on an affirmative answer (or with confirmation
disabled) it yields exactly one report message; on a decline it yields
nothing. -/
def execute_shell (cmd : String) (ask : Bool) (confirm : String)
    (run : String → ProcResult) : List Message :=
  let c := shellNorm cmd
  if !ask || inYYesEmpty (pyLower confirm) then
    [⟨"system", shellReport c (run c)⟩]
  else []

/-! ### Helper lemmas on strings and on the statement loop -/

theorem str_data_nil : ("" : String).data = [] := rfl

theorem str_empty_append (a : String) : "" ++ a = a := by
  apply String.ext
  simp [String.data_append, str_data_nil]

theorem str_append_empty (a : String) : a ++ "" = a := by
  apply String.ext
  simp [String.data_append, str_data_nil]

theorem str_append_assoc (a b c : String) : a ++ b ++ c = a ++ (b ++ c) := by
  apply String.ext
  simp [String.data_append]

theorem data_suffix_append (a b : String) : b.data <:+ (a ++ b).data := by
  rw [String.data_append]
  exact List.suffix_append a.data b.data

theorem runStmts_nil (env : Env) : runStmts env [] = ⟨env, "", false⟩ := rfl

theorem runStmts_cons (env : Env) (s : Stmt) (rest : List Stmt) :
    runStmts env (s :: rest) =
      (match stepStmt env s with
       | .error e =>
         ⟨env, (">>> " ++ unparse s ++ "\n") ++ (e.kind ++ ": " ++ e.msg ++ "\n"), true⟩
       | .ok (env₂, out) =>
         let r := runStmts env₂ rest
         ⟨r.env, (">>> " ++ unparse s ++ "\n") ++ out ++ r.out, r.err⟩) := rfl

theorem runStmts_cons_error (env : Env) (s : Stmt) (rest : List Stmt) (e : PyErr)
    (h : stepStmt env s = .error e) :
    runStmts env (s :: rest) =
      ⟨env, (">>> " ++ unparse s ++ "\n") ++ (e.kind ++ ": " ++ e.msg ++ "\n"), true⟩ := by
  rw [runStmts_cons, h]

theorem runStmts_cons_ok (env : Env) (s : Stmt) (rest : List Stmt) (env₂ : Env)
    (out : String) (h : stepStmt env s = .ok (env₂, out)) :
    runStmts env (s :: rest) =
      (let r := runStmts env₂ rest
       ⟨r.env, (">>> " ++ unparse s ++ "\n") ++ out ++ r.out, r.err⟩) := by
  rw [runStmts_cons, h]

/-- Splitting the statement loop at a list append: the loop runs the first
segment, and continues into the second only when the first produced no
error. -/
theorem runStmts_append (l₁ l₂ : List Stmt) : ∀ env : Env,
    runStmts env (l₁ ++ l₂) =
      (let r₁ := runStmts env l₁
       if r₁.err then r₁
       else
         let r₂ := runStmts r₁.env l₂
         ⟨r₂.env, r₁.out ++ r₂.out, r₂.err⟩) := by
  induction l₁ with
  | nil =>
    intro env
    simp [runStmts_nil, str_empty_append]
  | cons s t ih =>
    intro env
    rw [List.cons_append]
    cases hstep : stepStmt env s with
    | error e =>
      rw [runStmts_cons_error env s (t ++ l₂) e hstep,
        runStmts_cons_error env s t e hstep]
      simp
    | ok p =>
      obtain ⟨env₂, out⟩ := p
      rw [runStmts_cons_ok env s (t ++ l₂) env₂ out hstep,
        runStmts_cons_ok env s t env₂ out hstep, ih env₂]
      cases hrt : (runStmts env₂ t).err with
      | true => simp [hrt]
      | false => simp [hrt, str_append_assoc]

/-- The Execution Report in closed form: the fixed header, then the stdout
section exactly when stripped stdout is non-empty, then the stderr section
exactly when stripped stderr is non-empty, the no-output line when both
are empty, and the status line chosen by the exit code. -/
theorem shellReport_eq (cmd : String) (p : ProcResult) :
    shellReport cmd p =
      ("Ran command:\n```bash\n" ++ cmd ++ "\n```\n\n") ++
        (if pyStrip p.stdout ≠ "" then
          "Output:\n\n```bash\n" ++ pyStrip p.stdout ++ "\n```\n\n" else "") ++
        (if pyStrip p.stderr ≠ "" then
          "Error:\n\n```bash\n" ++ pyStrip p.stderr ++ "\n```\n\n" else "") ++
        (if pyStrip p.stdout = "" ∧ pyStrip p.stderr = "" then "No output\n\n" else "") ++
        (if p.returncode ≠ 0 then "Return code: " ++ toString p.returncode
         else "Ran successfully") := by
  by_cases h1 : pyStrip p.stdout = "" <;> by_cases h2 : pyStrip p.stderr = "" <;>
    by_cases h3 : p.returncode = 0 <;>
    · apply String.ext
      simp [shellReport, h1, h2, h3, String.data_append, str_data_nil]

/-! ### Claim C1: the Statement Interpreter's confirmation default -/

/-- Claim C1, counterexample: with confirmation required, answering the
`_execute_python` prompt with the empty string does *not* execute the code;
it yields the Aborted reply (the accepted tokens are only `y` and `yes`). -/
theorem python_empty_confirm_aborts :
    execute_python "1 + 1" true "" =
      [⟨"system", "Aborted, user chose not to run command."⟩] ∧
    (⟨"system", "Aborted, user chose not to run command."⟩ : Message) ≠
      ⟨"system", ">>> 1 + 1\n2\n"⟩ := by
  decide

/-- Claim C1 (amended): for the Statement Interpreter with confirmation
required, any answer whose lower-casing is neither `y` nor `yes` — the
empty string included — is a decline and produces the Aborted reply. -/
theorem python_decline_on_nonaffirmative (code ans : String)
    (h : inYYes (pyLower ans) = false) :
    execute_python code true ans =
      [⟨"system", "Aborted, user chose not to run command."⟩] := by
  simp only [execute_python, execute_python_env, Bool.not_true, Bool.false_or, h,
    Bool.false_eq_true, if_false]

/-- Claim C1, witness: the amended statement at `code = "1 + 1"`, empty
answer. -/
theorem python_decline_witness :
    execute_python "1 + 1" true "" =
      [⟨"system", "Aborted, user chose not to run command."⟩] :=
  python_decline_on_nonaffirmative "1 + 1" "" (by decide)

/-! ### Claim C2: the save handler replies `Saved to` regardless of the answer -/

/-- Claim C2: on a save-directive line, `_execute_save` yields the
`Saved to <filename>` reply no matter what the confirmation answer is, and
when the answer is not affirmative no file is written. -/
theorem save_reply_regardless_of_answer (st : SaveState) (line : String)
    (h : pyStartsWith (pyStrip line) "// save:" = true) :
    (saveStep st line).msgs =
      st.msgs ++ [⟨"system", "Saved to " ++ saveFilename line⟩] ∧
    (inYYesEmpty (pyLower (st.answers.headD "")) = false →
      (saveStep st line).writes = st.writes) := by
  constructor
  · simp only [saveStep, h, if_true]
    split
    · split <;> rfl
    · rfl
  · intro hneg
    simp only [saveStep, h, if_true, hneg, Bool.false_eq_true, if_false]
    split
    · split <;> rfl
    · rfl

/-- Claim C2, witness: a declined save directive after a completed
codeblock still yields `Saved to f.txt`, and writes nothing. -/
theorem save_reply_witness :
    (saveStep ⟨"```python\nhello\n```\n", "", ["n"], [], []⟩ "// save: f.txt").msgs =
      [⟨"system", "Saved to " ++ saveFilename "// save: f.txt"⟩] ∧
    (saveStep ⟨"```python\nhello\n```\n", "", ["n"], [], []⟩ "// save: f.txt").writes = [] := by
  have h := save_reply_regardless_of_answer
    ⟨"```python\nhello\n```\n", "", ["n"], [], []⟩ "// save: f.txt" (by decide)
  exact ⟨h.1, h.2 (by decide)⟩

/-! ### Claim C3: the load directive's filename slicing -/

/-- Claim C3 is false of the code: on the line `// load: foo.txt` the
dispatcher slices off only `len("load: ") = 6` characters of the raw line,
so `_execute_load` receives `d: foo.txt`, not `foo.txt`. -/
theorem linecmd_load_misparses :
    linecmdAction "// load: foo.txt" = some (Action.load "d: foo.txt") ∧
    ("d: foo.txt" : String) ≠ "foo.txt" := by
  decide

/-! ### Claim C4: loading a nonexistent file still prompts -/

/-- Claim C4 is false of the code: `_execute_load` on a missing file yields
the does-not-exist reply but, lacking an early return, still reaches the
confirmation prompt, and the default-affirmative empty answer then makes
`open` raise `FileNotFoundError`. -/
theorem load_missing_still_prompts :
    execute_load "nofile.txt" false "" "" =
      { msgs := [⟨"system",
          "Tried to load file \x27nofile.txt\x27, but it does not exist."⟩],
        prompted := true, exn := some "FileNotFoundError" } := by
  decide

/-! ### Claim C5: the EFFECT/EXPRESSION classification -/

/-- Claim C5, counterexample: an augmented assignment is *not* classified
EFFECT — `usesExec` is false on its kind, so `a += 1` is dispatched to the
`eval` path, which fails with a `SyntaxError`. -/
theorem augassign_value_path :
    usesExec (kindOf (Stmt.augAssign "a" (Expr.intLit 1))) = false ∧
    execute_python "a = 2\na += 1" false "" =
      [⟨"system",
        ">>> a = 2\n>>> a += 1\nSyntaxError: invalid syntax\nError during execution, aborting."⟩] := by
  decide

/-- Claim C5 (amended): the statement kinds classified EFFECT by the
source's `isinstance` chain — plain and annotated assignment, assert,
class/function definitions (sync and async), imports, if/for/while
(async for included), with (sync and async), try — are exactly so
classified by grammatical category; augmented assignment and match are
not, and fall to the value path. -/
theorem effect_kinds_classified :
    usesExec .assign = true ∧ usesExec .annAssign = true ∧
    usesExec .assertStmt = true ∧ usesExec .classDef = true ∧
    usesExec .functionDef = true ∧ usesExec .asyncFunctionDef = true ∧
    usesExec .importStmt = true ∧ usesExec .importFrom = true ∧
    usesExec .ifStmt = true ∧ usesExec .forStmt = true ∧
    usesExec .whileStmt = true ∧ usesExec .asyncFor = true ∧
    usesExec .withStmt = true ∧ usesExec .asyncWith = true ∧
    usesExec .tryStmt = true ∧
    usesExec .augAssign = false ∧ usesExec .matchStmt = false := by
  decide

/-! ### Claim C6: the single-expression transcript -/

/-- Claim C6, counterexample: for the single-expression source `'a'` —
valid, side-effect free, with non-empty value — the transcript renders the
value with `str`, producing `>>> 'a'\na\n`, not the `repr` form
`>>> 'a'\n'a'\n` the claim demands. -/
theorem str_vs_repr_at_string_literal :
    execute_python "\x27a\x27" false "" = [⟨"system", ">>> \x27a\x27\na\n"⟩] ∧
    (">>> \x27a\x27\na\n" : String) ≠
      ">>> \x27a\x27\n" ++ pyRepr (PyVal.str "a") ++ "\n" := by
  decide

/-- Claim C6 (amended): for a valid single-expression source with no side
effects whose value is truthy, `_execute_python` with confirmation
disabled yields one reply `">>> " ++ e ++ "\n" ++ str(value) ++ "\n"` (with
`e` the canonical re-rendering of the expression; `str` and `repr` agree
on numbers). -/
theorem expr_transcript (src : String) (ex : Expr) (v : PyVal)
    (hp : parsePython (pyStrip src) = .ok [Stmt.exprStmt ex])
    (he : evalExpr locals0 ex = .ok (v, ""))
    (ht : pyTruthy v = true) :
    execute_python src false "" =
      [⟨"system", ">>> " ++ unparseExpr ex ++ "\n" ++ pyStr v ++ "\n"⟩] := by
  have hux : usesExec (kindOf (Stmt.exprStmt ex)) = false := rfl
  have hstep : stepStmt locals0 (Stmt.exprStmt ex) = .ok (locals0, pyStr v ++ "\n") := by
    simp [stepStmt, hux, evalStmt, he, ht]
  have hrun : runStmts locals0 [Stmt.exprStmt ex] =
      ⟨locals0, (">>> " ++ unparse (Stmt.exprStmt ex) ++ "\n") ++ (pyStr v ++ "\n") ++ "",
        false⟩ := by
    rw [runStmts_cons_ok locals0 (Stmt.exprStmt ex) [] locals0 (pyStr v ++ "\n") hstep]
    simp [runStmts_nil]
  simp only [execute_python, execute_python_env, Bool.not_false, Bool.true_or, if_true]
  rw [hp]
  simp only [hrun]
  simp only [Message.mk.injEq, List.cons.injEq, and_true, true_and]
  apply String.ext
  simp [String.data_append, str_data_nil, unparse]

/-- Claim C6, witness: the amended statement at `1 + 1`, whose transcript
is `>>> 1 + 1\n2\n`. -/
theorem expr_transcript_witness :
    execute_python "1 + 1" false "" =
      [⟨"system",
        ">>> " ++ unparseExpr (Expr.add (Expr.intLit 1) (Expr.intLit 1)) ++ "\n" ++
          pyStr (PyVal.int 2) ++ "\n"⟩] :=
  expr_transcript "1 + 1" (Expr.add (Expr.intLit 1) (Expr.intLit 1)) (PyVal.int 2)
    rfl rfl rfl

/-! ### Claim C7: fail-fast with a single accumulated reply -/

/-- Claim C7: when the statements before `s` all succeed and `s` fails with
error `e`, the interpreter appends the one line `<ErrorKind>: <message>`
after `s`'s prompt line, executes and renders nothing after `s`, appends
the terminal aborting marker, and emits the whole transcript as a single
reply. -/
theorem python_fail_fast (code : String) (pre : List Stmt) (s : Stmt)
    (rest : List Stmt) (env₁ : Env) (out₁ : String) (e : PyErr)
    (hparse : parsePython (pyStrip code) = .ok (pre ++ s :: rest))
    (hpre : runStmts locals0 pre = ⟨env₁, out₁, false⟩)
    (hs : stepStmt env₁ s = .error e) :
    execute_python code false "" =
      [⟨"system",
        out₁ ++ (">>> " ++ unparse s ++ "\n") ++ (e.kind ++ ": " ++ e.msg ++ "\n") ++
          "Error during execution, aborting."⟩] := by
  have hrun : runStmts locals0 (pre ++ s :: rest) =
      ⟨env₁,
        out₁ ++ ((">>> " ++ unparse s ++ "\n") ++ (e.kind ++ ": " ++ e.msg ++ "\n")),
        true⟩ := by
    rw [runStmts_append pre (s :: rest) locals0, hpre]
    simp only [RunResult.err]
    rw [runStmts_cons_error env₁ s rest e hs]
    simp
  simp only [execute_python, execute_python_env, Bool.not_false, Bool.true_or, if_true]
  rw [hparse]
  simp only [hrun]
  simp only [Message.mk.injEq, List.cons.injEq, and_true, true_and]
  apply String.ext
  simp [String.data_append, str_data_nil]

/-- Claim C7, witness: `a = 2` succeeds, `b` raises `NameError`, and the
trailing statement `5` is neither executed nor rendered. -/
theorem python_fail_fast_witness :
    execute_python "a = 2\nb\n5" false "" =
      [⟨"system",
        ">>> a = 2\n" ++ (">>> " ++ unparse (Stmt.exprStmt (Expr.name "b")) ++ "\n") ++
          ((nameError "b").kind ++ ": " ++ (nameError "b").msg ++ "\n") ++
          "Error during execution, aborting."⟩] :=
  python_fail_fast "a = 2\nb\n5" [Stmt.assign "a" (Expr.intLit 2)]
    (Stmt.exprStmt (Expr.name "b")) [Stmt.exprStmt (Expr.intLit 5)]
    [("a", PyVal.int 2)] ">>> a = 2\n" (nameError "b") rfl rfl rfl

/-! ### Claim C8: the shell Execution Report's sections and status line -/

/-- Claim C8: with confirmation disabled the Shell Executor yields exactly
one reply whose content is the Execution Report; the report carries the
stdout section exactly when the stripped stdout is non-empty and the
stderr section exactly when the stripped stderr is non-empty, and it ends
with `Return code: <n>` when the exit code `n` is nonzero and with the
ran-successfully line when it is zero. -/
theorem shell_report_sections (cmd : String) (p : ProcResult)
    (run : String → ProcResult) :
    (execute_shell cmd false "" run =
      [⟨"system", shellReport (shellNorm cmd) (run (shellNorm cmd))⟩]) ∧
    shellReport cmd p =
      ("Ran command:\n```bash\n" ++ cmd ++ "\n```\n\n") ++
        (if pyStrip p.stdout ≠ "" then
          "Output:\n\n```bash\n" ++ pyStrip p.stdout ++ "\n```\n\n" else "") ++
        (if pyStrip p.stderr ≠ "" then
          "Error:\n\n```bash\n" ++ pyStrip p.stderr ++ "\n```\n\n" else "") ++
        (if pyStrip p.stdout = "" ∧ pyStrip p.stderr = "" then "No output\n\n" else "") ++
        (if p.returncode ≠ 0 then "Return code: " ++ toString p.returncode
         else "Ran successfully") ∧
    (p.returncode ≠ 0 →
      ("Return code: " ++ toString p.returncode).data <:+ (shellReport cmd p).data) ∧
    (p.returncode = 0 → ("Ran successfully" : String).data <:+ (shellReport cmd p).data) := by
  refine ⟨rfl, shellReport_eq cmd p, fun h => ?_, fun h => ?_⟩
  · rw [shellReport_eq cmd p, if_pos h]
    exact data_suffix_append _ _
  · have hn : ¬(p.returncode ≠ 0) := fun hk => hk h
    rw [shellReport_eq cmd p, if_neg hn]
    exact data_suffix_append _ _

/-- Claim C8, witness: a command with empty stdout, stderr `boom` and exit
code 1 has a report ending in `Return code: 1`. -/
theorem shell_report_witness :
    ("Return code: " ++ toString (1 : Int)).data <:+
      (shellReport "false" ⟨"", "boom", 1⟩).data :=
  (shell_report_sections "false" ⟨"", "boom", 1⟩ (fun _ => ⟨"", "boom", 1⟩)).2.2.1
    (by decide)

/-! ### Claim C9: a printing statement adds no value line -/

/-- Claim C9: executing `print(1)` with confirmation disabled yields the
single reply `>>> print(1)\n` — the `print` call evaluates to `None`,
which is falsy, so no value line is appended. -/
theorem print_no_value_line :
    execute_python "print(1)" false "" = [⟨"system", ">>> print(1)\n"⟩] := by
  decide

/-! ### Claim C10: bindings persist across statements within a call -/

/-- Claim C10: the binding made by the EFFECT statement `a = 2` persists in
the shared environment, so the later expression `a` evaluates to `2`:
the transcript is `>>> a = 2\n>>> a\n2\n` in a single reply. -/
theorem bindings_persist :
    execute_python "a = 2\na" false "" = [⟨"system", ">>> a = 2\n>>> a\n2\n"⟩] := by
  decide

end GptPlayground
